import Mathlib

/-!
Verification development for the Jebao pump MQTT bridge
(`jebao_mqtt_bridge.py`).  The Python source is shallowly embedded:
byte strings become `List Nat` (each entry a byte value), Python ints
become `Nat`/`Int`, Python floats (timestamps, delays) become `ℚ`, and
fallible constructions (`bytes(...)` / `int.to_bytes` raising on
out-of-range input) become `Option`.  Stateful methods become pure
functions from an explicit session state to a result and a new state.
-/

namespace Jebao

/-! Section: Protocol constants (source lines 44-63) -/

def CMD_GET_PASSCODE : Nat := 0x0006
def CMD_LOGIN : Nat := 0x0008
def CMD_CONTROL : Nat := 0x0093

/-- Attribute triples `(type, attr_hi, attr_lo)`. -/
def ATTR_POWER : Nat × Nat × Nat := (0x00, 0x00, 0x01)
def ATTR_FEED : Nat × Nat × Nat := (0x00, 0x00, 0x04)
def ATTR_MODE : Nat × Nat × Nat := (0x00, 0x10, 0x02)
def ATTR_FLOW : Nat × Nat × Nat := (0x00, 0x80, 0x00)
def ATTR_FREQUENCY : Nat × Nat × Nat := (0x01, 0x00, 0x00)

/-- The five attribute triples the notification decoder knows. -/
def knownAttrs : List (Nat × Nat × Nat) :=
  [ATTR_POWER, ATTR_FEED, ATTR_MODE, ATTR_FLOW, ATTR_FREQUENCY]

/-- Mode table `MODES` (BLE code to display name), source lines 56-62. -/
def MODES : List (Nat × String) :=
  [(0, "Classic Wave"), (1, "Cross-flow"), (2, "Sine Wave"),
   (4, "Random"), (6, "Constant")]

/-- Python `MODES.get(value, "Unknown")`. -/
def modeName (m : Nat) : String :=
  ((MODES.find? (fun p => p.1 = m)).map (fun p => p.2)).getD "Unknown"

/-- Python `mode in MODES` (dict key membership), for an arbitrary int. -/
def modeKnown (m : Int) : Bool :=
  MODES.any (fun p => (p.1 : Int) = m)

/-- Python `MODE_VALUES` reverse lookup (display name to BLE code). -/
def modeCode (name : String) : Option Nat :=
  (MODES.find? (fun p => p.2 = name)).map (fun p => p.1)

/-! Section: Codec (source lines 120-134, and the frame parsing prelude of
`_notification_handler`, lines 136-141) -/

/-- Embeds `JebaoPump._make_packet` (lines 120-124):
`bytes([0,0,0,3, 3+len(payload), 0])`, then the command as two
big-endian bytes, then the payload.
Python raises when the length byte exceeds 255 or the command does not
fit two bytes; that is the `none` case. -/
def make_packet (cmd : Nat) (payload : List Nat) : Option (List Nat) :=
  if 3 + payload.length < 256 ∧ cmd < 65536 then
    some (0 :: 0 :: 0 :: 3 :: (3 + payload.length) :: 0 ::
          (cmd / 256) :: (cmd % 256) :: payload)
  else none

/-- Embeds the frame-parsing prelude of `_notification_handler`
(lines 138-141): frames shorter than 8 bytes are ignored; the command
is the big-endian pair at offsets 6-7 and the payload is everything
from offset 8. -/
def parse_frame (data : List Nat) : Option (Nat × List Nat) :=
  if data.length < 8 then none
  else some (data.getD 6 0 * 256 + data.getD 7 0, data.drop 8)

/-- Embeds `JebaoPump._make_write_p0` (lines 126-134).  The `bytearray`
assignments raise when a component is out of byte range; `none` models
that. -/
def make_write_p0 (attr : Nat × Nat × Nat) (value : Int) : Option (List Nat) :=
  if attr.1 < 256 ∧ attr.2.1 < 256 ∧ attr.2.2 < 256 ∧ 0 ≤ value ∧ value < 256 then
    some [0x11, 0, 0, 0, 0, 0, 0, attr.1, attr.2.1, attr.2.2, value.toNat]
  else none

/-- Python big-endian `n.to_bytes(4)`: `none` when `n` does not fit four
bytes (Python raises `OverflowError`). -/
def toBytes4 (n : Nat) : Option (List Nat) :=
  if n < 4294967296 then
    some [n / 16777216, n / 65536 % 256, n / 256 % 256, n % 256]
  else none

/-! Section: Data model (source lines 69-100) -/

/-- Embeds the `PumpState` dataclass (lines 69-83).  Timestamps and
hour counters are Python floats, modelled as rationals. -/
structure PumpState where
  power : Bool := false
  feed : Bool := false
  mode : Nat := 0
  flow : Nat := 50
  frequency : Nat := 8
  connected : Bool := false
  power_on_time : ℚ := 0
  runtime_today : ℚ := 0
  last_runtime_reset : String := ""
  state_initialized : Bool := false
deriving DecidableEq

/-- Embeds the numeric bounds of the `PumpConfig` dataclass
(lines 86-95).  The identity fields (name, mac, id) and the slug
derivation are not modelled: no claim concerns them. -/
structure PumpConfig where
  flow_min : Int := 30
  flow_max : Int := 100
  frequency_min : Int := 5
  frequency_max : Int := 20
deriving DecidableEq

/-- The mutable per-session fields of `JebaoPump` (lines 106-118) that
the verified operations touch.  The Python `client` object is modelled
by two flags: `hasClient` (the client is not None) and
`clientConnected` (`client.is_connected`). -/
structure Session where
  config : PumpConfig := {}
  state : PumpState := {}
  hasClient : Bool := false
  clientConnected : Bool := false
  passcode : List Nat := []
  commandSn : Nat := 1
  authenticated : Bool := false
deriving DecidableEq

/-- A freshly constructed session (`JebaoPump.__init__`, lines 106-118). -/
def defaultSession : Session := {}

/-- A freshly constructed pump state (all dataclass defaults). -/
def defaultPumpState : PumpState := {}

/-! Section: Notification path (source lines 136-221) -/

/-- Python `bool(value)` for an int value. -/
def pyBool (v : Nat) : Bool := v != 0

/-- Embeds `JebaoPump._update_state` (lines 174-221).  Returns the new
pump state and whether a state-change event was emitted (the
`state_callback` call guarded by `changed`); `now` is the value
`time.time()` would return inside the power branch. -/
def update_state (st : PumpState) (type_byte attr_hi attr_lo value : Nat)
    (now : ℚ) : PumpState × Bool :=
  let r : PumpState × Bool :=
    if type_byte = 0x00 ∧ attr_hi = 0x00 ∧ attr_lo = 0x01 then
      if st.power ≠ pyBool value then
        let st1 :=
          if pyBool value then { st with power_on_time := now }
          else if st.power_on_time > 0 then
            { st with
              runtime_today := st.runtime_today + (now - st.power_on_time) / 3600,
              power_on_time := 0 }
          else st
        ({ st1 with power := pyBool value }, true)
      else (st, false)
    else if type_byte = 0x00 ∧ attr_hi = 0x00 ∧ attr_lo = 0x04 then
      if st.feed ≠ pyBool value then ({ st with feed := pyBool value }, true)
      else (st, false)
    else if type_byte = 0x00 ∧ attr_hi = 0x10 ∧ attr_lo = 0x02 then
      if st.mode ≠ value then ({ st with mode := value }, true) else (st, false)
    else if type_byte = 0x00 ∧ attr_hi = 0x80 ∧ attr_lo = 0x00 then
      if st.flow ≠ value then ({ st with flow := value }, true) else (st, false)
    else if type_byte = 0x01 ∧ attr_hi = 0x00 ∧ attr_lo = 0x00 then
      if st.frequency ≠ value then ({ st with frequency := value }, true)
      else (st, false)
    else (st, false)
  if r.2 then ({ r.1 with state_initialized := true }, true) else (r.1, false)

/-- Result of one `_notification_handler` invocation: the new session,
the number of `state_callback` events emitted, and whether a `login`
write was scheduled (`asyncio.create_task(self._send_login())`). -/
structure NotifyResult where
  session : Session
  events : Nat
  loginScheduled : Bool
deriving DecidableEq

/-- Embeds `JebaoPump._notification_handler` (lines 136-172).  `now` is
the wall-clock instant used for runtime tracking. -/
def notification_handler (s : Session) (data : List Nat) (now : ℚ) :
    NotifyResult :=
  if data.length < 8 then ⟨s, 0, false⟩
  else
    let cmd := data.getD 6 0 * 256 + data.getD 7 0
    if cmd = 0x0007 ∧ data.length > 8 then
      ⟨{ s with passcode := data.drop 8 }, 0, true⟩
    else if cmd = 0x0009 then
      if data.length > 8 ∧ data.getD 8 0 = 0x00 then
        ⟨{ s with authenticated := true,
                  state := { s.state with connected := true } }, 1, false⟩
      else ⟨s, 0, false⟩
    else if cmd = 0x0093 ∧ data.length ≥ 19 then
      let p0 := data.drop 12
      if p0.length ≥ 11 then
        let r := update_state s.state (p0.getD 7 0) (p0.getD 8 0)
          (p0.getD 9 0) (p0.getD 10 0) now
        ⟨{ s with state := r.1 }, if r.2 then 1 else 0, false⟩
      else ⟨s, 0, false⟩
    else ⟨s, 0, false⟩

/-! Section: Command path (source lines 229-246 and 384-411) -/

/-- Embeds `JebaoPump._send_command` (lines 229-246).  `writeOk` models
whether `write_gatt_char` succeeds or raises `BleakError`.  The result
is `none` when packet construction raises (value or serial out of
range); otherwise `some (ok, s1, written)` where `ok` is the returned
bool, `s1` the session after the call, and `written` the frame the
transport accepted (`none` when nothing was written). -/
def send_command (s : Session) (attr : Nat × Nat × Nat) (value : Int)
    (writeOk : Bool) : Option (Bool × Session × Option (List Nat)) :=
  if !(s.authenticated && s.hasClient && s.clientConnected) then
    some (false, s, none)
  else
    match make_write_p0 attr value, toBytes4 s.commandSn with
    | some p0, some sn =>
      match make_packet CMD_CONTROL (sn ++ p0) with
      | some packet =>
        let s1 := { s with commandSn := s.commandSn + 1 }
        if writeOk then some (true, s1, some packet)
        else some (false, s1, none)
      | none => none
    | _, _ => none

/-- Embeds `set_power` (lines 384-386). -/
def set_power (s : Session) (b : Bool) (writeOk : Bool) :
    Option (Bool × Session × Option (List Nat)) :=
  send_command s ATTR_POWER (if b then 1 else 0) writeOk

/-- Embeds `set_feed` (lines 388-390). -/
def set_feed (s : Session) (b : Bool) (writeOk : Bool) :
    Option (Bool × Session × Option (List Nat)) :=
  send_command s ATTR_FEED (if b then 1 else 0) writeOk

/-- Embeds `set_flow` (lines 392-395): clamp to the configured bounds,
then send. -/
def set_flow (s : Session) (percent : Int) (writeOk : Bool) :
    Option (Bool × Session × Option (List Nat)) :=
  send_command s ATTR_FLOW
    (max s.config.flow_min (min s.config.flow_max percent)) writeOk

/-- Embeds `set_frequency` (lines 397-400). -/
def set_frequency (s : Session) (seconds : Int) (writeOk : Bool) :
    Option (Bool × Session × Option (List Nat)) :=
  send_command s ATTR_FREQUENCY
    (max s.config.frequency_min (min s.config.frequency_max seconds)) writeOk

/-- Embeds `set_mode` (lines 402-406): send only when the code is a
`MODES` key, otherwise return failure without touching the link. -/
def set_mode (s : Session) (mode : Int) (writeOk : Bool) :
    Option (Bool × Session × Option (List Nat)) :=
  if modeKnown mode then send_command s ATTR_MODE mode writeOk
  else some (false, s, none)

/-- Embeds `set_mode_by_name` (lines 408-411). -/
def set_mode_by_name (s : Session) (name : String) (writeOk : Bool) :
    Option (Bool × Session × Option (List Nat)) :=
  match modeCode name with
  | some m => set_mode s (m : Int) writeOk
  | none => some (false, s, none)

/-! Section: Connection management (source lines 248-303 and 329-368) -/

/-- Embeds `_cleanup_connection` (lines 294-303): drop authentication,
mark the state disconnected, discard the client. -/
def cleanup_connection (s : Session) : Session :=
  { s with authenticated := false,
           state := { s.state with connected := false },
           hasClient := false, clientConnected := false }

/-- Environment of one `connect()` call: `bleOk` is whether the GATT
connect, the notification subscribe and the passcode write all succeed
(an exception from any of them is `bleOk = false`), and `authAt k` is
the value the polling loop reads from `self.authenticated` at its k-th
100 ms check, as set by the concurrently running notification handler. -/
structure ConnectEnv where
  bleOk : Bool
  authAt : Nat → Bool

/-- Embeds `JebaoPump.connect` (lines 248-292).  When some poll among
the 50 sees the authenticated flag, the notification handler has also
set `state.connected` (lines 153-154), which the success state
reflects. -/
def connect (s : Session) (env : ConnectEnv) : Bool × Session :=
  if s.hasClient && s.clientConnected then (true, s)
  else
    let sConn := { s with hasClient := true, clientConnected := true }
    if env.bleOk then
      if (List.range 50).any env.authAt then
        (true, { sConn with authenticated := true,
                            state := { sConn.state with connected := true } })
      else (false, cleanup_connection sConn)
    else (false, cleanup_connection sConn)

/-- One backoff update of `_reconnect_loop` (lines 364-366):
`delay = min(delay * 2 + jitter, 300)`. -/
def reconnect_next (delay jitter : ℚ) : ℚ := min (delay * 2 + jitter) 300

/-- The delay sequence of the reconnect loop: initial delay 5 s
(line 331), then the backoff update with the n-th jitter draw. -/
def reconnect_delays (jit : Nat → ℚ) : Nat → ℚ
  | 0 => 5
  | n + 1 => reconnect_next (reconnect_delays jit n) (jit n)

/-! Section: Broker-facing layer (source lines 488-502 and 669-730) -/

/-- The session call `_handle_command` selects for an entity. -/
inductive CommandAction where
  | power (b : Bool)
  | feed (b : Bool)
  | flow (v : Int)
  | frequency (v : Int)
  | modeByName (name : String)
  | invalidPayload
  | noAction
deriving DecidableEq

/-- Python `str.lower()`, as a character map (faithful for the ASCII
payloads the bridge deals in). -/
def pyLower (p : String) : String := ⟨p.data.map Char.toLower⟩

/-- Python `str.strip()`: drop leading and trailing whitespace. -/
def pyStrip (p : String) : String :=
  ⟨((p.data.dropWhile Char.isWhitespace).reverse.dropWhile
      Char.isWhitespace).reverse⟩

/-- The inline truthiness test of `_handle_command` (lines 492 and
494): the lowercased payload is one of on, true, 1. -/
def payload_truthy (payload : String) : Bool :=
  pyLower payload = "on" || pyLower payload = "true" || pyLower payload = "1"

/-- The truthiness test as the specification words it: the
lowercase-STRIPPED payload is one of on, true, 1.  Kept separate from
`payload_truthy` (translated from the source) for the refinement
comparison of claim C4. -/
def spec_truthy (payload : String) : Bool :=
  pyLower (pyStrip payload) = "on" || pyLower (pyStrip payload) = "true" ||
    pyLower (pyStrip payload) = "1"

/-- Embeds `MQTTBridge._handle_command` (lines 488-502), as the choice
of session call.  `parseNum` abstracts the numeric parse
`int(float(payload))` used for flow and frequency, whose exact float
semantics no claim depends on; `none` is the raising (caught) case. -/
def handle_command (parseNum : String → Option Int) (entity payload : String) :
    CommandAction :=
  if entity = "power" then .power (payload_truthy payload)
  else if entity = "feed" then .feed (payload_truthy payload)
  else if entity = "flow" then
    match parseNum payload with
    | some v => .flow v
    | none => .invalidPayload
  else if entity = "frequency" then
    match parseNum payload with
    | some v => .frequency v
    | none => .invalidPayload
  else if entity = "mode" then .modeByName payload
  else .noAction

/-- Two-decimal rendering of the runtime hours for the runtime topic.
Python formats the float with two fixed decimals; this renders the
rational rounded to hundredths (runtime values are nonnegative). -/
def format_runtime (r : ℚ) : String :=
  let c : Int := ⌊r * 100 + 1 / 2⌋
  toString (c / 100) ++ "." ++
    (if c % 100 < 10 then "0" ++ toString (c % 100) else toString (c % 100))

/-- Embeds `MQTTBridge._publish_state` (lines 669-730): the retained
topic publishes of one invocation, in order, plus the pump state after
the daily runtime reset.  `mqttUp` models
`self.mqtt_client and self.mqtt_client.is_connected()`; `today` is
`date.today().isoformat()` and `now` is `time.time()`. -/
def publish_state (mqttUp : Bool) (pfx pid : String) (st : PumpState)
    (today : String) (now : ℚ) : List (String × String) × PumpState :=
  if !mqttUp then ([], st)
  else
    let base := (pfx ++ "/" ++ pid ++ "/connected/state",
                 if st.connected then "ON" else "OFF")
    if !st.state_initialized then ([base], st)
    else
      let st1 :=
        if st.last_runtime_reset ≠ today then
          { st with runtime_today := 0, last_runtime_reset := today }
        else st
      let runtime := st1.runtime_today +
        (if st1.power ∧ st1.power_on_time > 0 then
          (now - st1.power_on_time) / 3600
         else 0)
      ([base,
        (pfx ++ "/" ++ pid ++ "/power/state", if st1.power then "ON" else "OFF"),
        (pfx ++ "/" ++ pid ++ "/feed/state", if st1.feed then "ON" else "OFF"),
        (pfx ++ "/" ++ pid ++ "/flow/state", toString st1.flow),
        (pfx ++ "/" ++ pid ++ "/frequency/state", toString st1.frequency),
        (pfx ++ "/" ++ pid ++ "/mode/state", modeName st1.mode),
        (pfx ++ "/" ++ pid ++ "/runtime/state", format_runtime runtime)], st1)

/-- A session that has completed the handshake: authenticated with a
connected client, serial still at its initial value 1.  Used as the
concrete session of witnesses and counterexamples. -/
def authSession : Session :=
  { defaultSession with authenticated := true, hasClient := true, clientConnected := true }

/-- A session holding a connected client object without having
completed authentication. -/
def linkOnlySession : Session :=
  { defaultSession with hasClient := true, clientConnected := true }

/-! Section: Literal frames from the specification scenarios -/

/-- The literal 21-byte frame of scenario S4 in the specification. -/
def s4Frame : List Nat :=
  [0x00, 0x00, 0x00, 0x03, 0x10, 0x00, 0x00, 0x93, 0x00, 0x00, 0x00, 0x00,
   0x11, 0x00, 0x00, 0x00, 0x00, 0x00, 0x10, 0x02, 0x04]

/-- The corresponding well-formed 23-byte control notification whose
11-byte P0 addresses the mode attribute with value 4. -/
def modeFrame : List Nat :=
  [0x00, 0x00, 0x00, 0x03, 0x12, 0x00, 0x00, 0x93, 0x00, 0x00, 0x00, 0x00,
   0x11, 0x00, 0x00, 0x00, 0x00, 0x00, 0x00, 0x00, 0x10, 0x02, 0x04]

end Jebao

open Jebao

/-- C5: for every command in `{get_passcode, login, control}` and every
payload of at most 250 bytes, the built frame starts with the magic
`00 00 00 03`, carries `3 + len(payload)` at offset 4, `0x00` at
offset 5, the big-endian command at offsets 6-7 and the payload from
offset 8, and parsing the frame recovers the command and the payload. -/
theorem make_packet_parse_roundtrip (cmd : Nat) (payload : List Nat)
    (hc : cmd = CMD_GET_PASSCODE ∨ cmd = CMD_LOGIN ∨ cmd = CMD_CONTROL)
    (hl : payload.length ≤ 250) :
    ∃ frame, make_packet cmd payload = some frame ∧
      frame.take 4 = [0, 0, 0, 3] ∧
      frame.getD 4 0 = 3 + payload.length ∧
      frame.getD 5 0 = 0 ∧
      frame.getD 6 0 = cmd / 256 ∧
      frame.getD 7 0 = cmd % 256 ∧
      frame.drop 8 = payload ∧
      parse_frame frame = some (cmd, payload) := by
  have hcmd : cmd < 65536 := by
    rcases hc with h | h | h <;> subst h <;> decide
  have hlen : 3 + payload.length < 256 := by omega
  refine ⟨0 :: 0 :: 0 :: 3 :: (3 + payload.length) :: 0 ::
      (cmd / 256) :: (cmd % 256) :: payload, ?_, rfl, rfl, rfl, rfl, rfl, rfl, ?_⟩
  · simp [make_packet, hlen, hcmd]
  · have h8 : ¬ (0 :: 0 :: 0 :: 3 :: (3 + payload.length) :: 0 ::
        (cmd / 256) :: (cmd % 256) :: payload).length < 8 := by
      simp
    simp [parse_frame, h8, List.getD]
    omega

/-- Witness for C5 at `cmd = login`, `payload = [0xAA, 0xBB]`. -/
theorem make_packet_parse_roundtrip_witness :
    ((CMD_LOGIN = CMD_GET_PASSCODE ∨ CMD_LOGIN = CMD_LOGIN ∨ CMD_LOGIN = CMD_CONTROL) ∧
      ([0xAA, 0xBB] : List Nat).length ≤ 250) ∧
    ∃ frame, make_packet CMD_LOGIN [0xAA, 0xBB] = some frame ∧
      frame.take 4 = [0, 0, 0, 3] ∧
      frame.getD 4 0 = 3 + ([0xAA, 0xBB] : List Nat).length ∧
      frame.getD 5 0 = 0 ∧
      frame.getD 6 0 = CMD_LOGIN / 256 ∧
      frame.getD 7 0 = CMD_LOGIN % 256 ∧
      frame.drop 8 = [0xAA, 0xBB] ∧
      parse_frame frame = some (CMD_LOGIN, [0xAA, 0xBB]) :=
  ⟨⟨Or.inr (Or.inl rfl), by decide⟩,
    make_packet_parse_roundtrip CMD_LOGIN [0xAA, 0xBB] (Or.inr (Or.inl rfl)) (by decide)⟩

/-! Section: Shared helper lemmas -/

/-- Helper: a send on an authenticated, connected session with an
in-range value and serial builds the control frame with the value byte
at frame offset 22, increments the serial, and succeeds exactly when
the transport accepts the write. -/
theorem send_command_eq (s : Session) (attr : Nat × Nat × Nat) (value : Int)
    (writeOk : Bool)
    (hau : s.authenticated = true) (hcl : s.hasClient = true)
    (hco : s.clientConnected = true) (hsn : s.commandSn < 4294967296)
    (ha1 : attr.1 < 256) (ha2 : attr.2.1 < 256) (ha3 : attr.2.2 < 256)
    (hv0 : 0 ≤ value) (hv1 : value < 256) :
    send_command s attr value writeOk =
      some (writeOk, { s with commandSn := s.commandSn + 1 },
        if writeOk then
          some (0 :: 0 :: 0 :: 3 :: 18 :: 0 :: 0 :: 147 ::
            (s.commandSn / 16777216) :: (s.commandSn / 65536 % 256) ::
            (s.commandSn / 256 % 256) :: (s.commandSn % 256) ::
            0x11 :: 0 :: 0 :: 0 :: 0 :: 0 :: 0 ::
            attr.1 :: attr.2.1 :: attr.2.2 :: [value.toNat])
        else none) := by
  have hguard : (s.authenticated && s.hasClient && s.clientConnected) = true := by
    simp [hau, hcl, hco]
  simp only [send_command, hguard, Bool.not_true, Bool.false_eq_true, if_false,
    make_write_p0, toBytes4, make_packet, CMD_CONTROL]
  rw [if_pos ⟨ha1, ha2, ha3, hv0, hv1⟩, if_pos hsn]
  simp only [List.cons_append, List.nil_append, List.length_cons, List.length_nil]
  norm_num
  cases writeOk <;> rfl

/-! Section: C1: serial number progression in the command path -/

/-- C1 counterexample: on an authenticated, connected session with
serial 1, a `_send_command` call whose transport write raises returns
failure, yet the serial number has advanced to 2 (the increment on
source line 239 precedes the write attempt), contradicting the claim
that the serial is unchanged on transport error. -/
theorem send_command_error_increments_cex :
    send_command authSession ATTR_POWER 1 false
      = some (false, { authSession with commandSn := 2 }, none) ∧
    authSession.commandSn = 1 := by
  constructor
  · rfl
  · rfl

/-- C1 (amended): every `_send_command` issuance on an authenticated,
connected session advances the 4-byte serial by exactly one whether or
not the transport accepts the write; the built frame carries the
pre-increment serial big-endian at offsets 8-11; the call succeeds
exactly when the transport accepts, and on transport error it returns
failure with nothing written although the serial has already advanced. -/
theorem send_command_serial_progression (s : Session)
    (attr : Nat × Nat × Nat) (value : Int) (writeOk : Bool)
    (hau : s.authenticated = true) (hcl : s.hasClient = true)
    (hco : s.clientConnected = true) (hsn : s.commandSn < 4294967296)
    (hattr : attr ∈ knownAttrs) (hv0 : 0 ≤ value) (hv1 : value < 256) :
    ∃ s1 w, send_command s attr value writeOk = some (writeOk, s1, w) ∧
      s1.commandSn = s.commandSn + 1 ∧
      (writeOk = false → w = none) ∧
      (writeOk = true → ∃ f, w = some f ∧
        (f.drop 8).take 4 = [s.commandSn / 16777216, s.commandSn / 65536 % 256,
          s.commandSn / 256 % 256, s.commandSn % 256]) := by
  have hb : attr.1 < 256 ∧ attr.2.1 < 256 ∧ attr.2.2 < 256 := by
    simp only [knownAttrs, ATTR_POWER, ATTR_FEED, ATTR_MODE, ATTR_FLOW,
      ATTR_FREQUENCY, List.mem_cons, List.not_mem_nil, or_false] at hattr
    rcases hattr with rfl | rfl | rfl | rfl | rfl <;>
      exact ⟨by norm_num, by norm_num, by norm_num⟩
  rw [send_command_eq s attr value writeOk hau hcl hco hsn hb.1 hb.2.1 hb.2.2 hv0 hv1]
  refine ⟨_, _, rfl, rfl, ?_, ?_⟩
  · intro h; subst h; rfl
  · intro h; subst h; exact ⟨_, rfl, rfl⟩

/-- Witness for the amended C1 on a concrete authenticated session. -/
theorem send_command_serial_progression_witness :
    (authSession.authenticated = true ∧ authSession.commandSn < 4294967296 ∧
      ATTR_FEED ∈ knownAttrs ∧ (0 : Int) ≤ 1 ∧ (1 : Int) < 256) ∧
    ∃ s1 w, send_command authSession ATTR_FEED 1 true = some (true, s1, w) ∧
      s1.commandSn = authSession.commandSn + 1 ∧
      (true = false → w = none) ∧
      (true = true → ∃ f, w = some f ∧
        (f.drop 8).take 4 = [authSession.commandSn / 16777216,
          authSession.commandSn / 65536 % 256,
          authSession.commandSn / 256 % 256, authSession.commandSn % 256]) :=
  ⟨⟨rfl, by norm_num [authSession, defaultSession], by decide, by norm_num, by norm_num⟩,
    send_command_serial_progression authSession ATTR_FEED 1 true rfl rfl rfl
      (by norm_num [authSession, defaultSession]) (by decide) (by norm_num) (by norm_num)⟩

/-! Section: C6: clamping of flow and frequency setters -/

/-- C6: on an authenticated, connected session whose configured bounds
are ordered bytes, `set_flow(v)` emits a frame whose P0 byte at offset
10 (frame offset 22) is the clamp of `v` into
`[flow_min, flow_max]`: `flow_min` when `v` is below the range,
`flow_max` when above, `v` itself inside; likewise `set_frequency`
with the frequency bounds. -/
theorem set_flow_frequency_clamp (s : Session)
    (hau : s.authenticated = true) (hcl : s.hasClient = true)
    (hco : s.clientConnected = true) (hsn : s.commandSn < 4294967296)
    (hf0 : 0 ≤ s.config.flow_min) (hf : s.config.flow_min ≤ s.config.flow_max)
    (hf1 : s.config.flow_max < 256)
    (hq0 : 0 ≤ s.config.frequency_min)
    (hq : s.config.frequency_min ≤ s.config.frequency_max)
    (hq1 : s.config.frequency_max < 256) (v : Int) :
    (∃ s1 f, set_flow s v true = some (true, s1, some f) ∧
      f.getD 22 0 = (max s.config.flow_min (min s.config.flow_max v)).toNat ∧
      (v < s.config.flow_min → f.getD 22 0 = s.config.flow_min.toNat) ∧
      (s.config.flow_max < v → f.getD 22 0 = s.config.flow_max.toNat) ∧
      (s.config.flow_min ≤ v → v ≤ s.config.flow_max →
        f.getD 22 0 = v.toNat)) ∧
    (∃ s1 f, set_frequency s v true = some (true, s1, some f) ∧
      f.getD 22 0 =
        (max s.config.frequency_min (min s.config.frequency_max v)).toNat ∧
      (v < s.config.frequency_min →
        f.getD 22 0 = s.config.frequency_min.toNat) ∧
      (s.config.frequency_max < v →
        f.getD 22 0 = s.config.frequency_max.toNat) ∧
      (s.config.frequency_min ≤ v → v ≤ s.config.frequency_max →
        f.getD 22 0 = v.toNat)) := by
  constructor
  · have h0 : 0 ≤ max s.config.flow_min (min s.config.flow_max v) :=
      le_trans hf0 (le_max_left _ _)
    have h1 : max s.config.flow_min (min s.config.flow_max v) < 256 :=
      lt_of_le_of_lt (max_le hf (min_le_left _ _)) hf1
    rw [set_flow, send_command_eq s ATTR_FLOW _ true hau hcl hco hsn
      (by norm_num [ATTR_FLOW]) (by norm_num [ATTR_FLOW])
      (by norm_num [ATTR_FLOW]) h0 h1]
    refine ⟨_, _, rfl, rfl, ?_, ?_, ?_⟩
    · intro hv
      rw [min_eq_right (by omega), max_eq_left (by omega)]; rfl
    · intro hv
      rw [min_eq_left (by omega), max_eq_right hf]; rfl
    · intro hv1 hv2
      rw [min_eq_right hv2, max_eq_right hv1]; rfl
  · have h0 : 0 ≤ max s.config.frequency_min (min s.config.frequency_max v) :=
      le_trans hq0 (le_max_left _ _)
    have h1 : max s.config.frequency_min (min s.config.frequency_max v) < 256 :=
      lt_of_le_of_lt (max_le hq (min_le_left _ _)) hq1
    rw [set_frequency, send_command_eq s ATTR_FREQUENCY _ true hau hcl hco hsn
      (by norm_num [ATTR_FREQUENCY]) (by norm_num [ATTR_FREQUENCY])
      (by norm_num [ATTR_FREQUENCY]) h0 h1]
    refine ⟨_, _, rfl, rfl, ?_, ?_, ?_⟩
    · intro hv
      rw [min_eq_right (by omega), max_eq_left (by omega)]; rfl
    · intro hv
      rw [min_eq_left (by omega), max_eq_right hq]; rfl
    · intro hv1 hv2
      rw [min_eq_right hv2, max_eq_right hv1]; rfl

/-- Witness for C6: scenario S3, `set_flow(10)` with default bounds
30..100 on a concrete authenticated session sends byte 30 (0x1E). -/
theorem set_flow_frequency_clamp_witness :
    (authSession.authenticated = true ∧
      0 ≤ authSession.config.flow_min ∧
      authSession.config.flow_min ≤ authSession.config.flow_max ∧
      authSession.config.flow_max < 256) ∧
    (∃ s1 f, set_flow authSession 10 true = some (true, s1, some f) ∧
      f.getD 22 0 =
        (max authSession.config.flow_min
          (min authSession.config.flow_max 10)).toNat ∧
      (10 < authSession.config.flow_min →
        f.getD 22 0 = authSession.config.flow_min.toNat) ∧
      (authSession.config.flow_max < 10 →
        f.getD 22 0 = authSession.config.flow_max.toNat) ∧
      (authSession.config.flow_min ≤ 10 → 10 ≤ authSession.config.flow_max →
        f.getD 22 0 = (10 : Int).toNat)) :=
  ⟨⟨rfl, by decide, by decide, by decide⟩,
    (set_flow_frequency_clamp authSession rfl rfl rfl (by decide) (by decide)
      (by decide) (by decide) (by decide) (by decide) (by decide) 10).1⟩

/-! Section: C7: mode validity -/

/-- Helper: the `MODES` key-membership test as a disjunction. -/
theorem modeKnown_iff (v : Int) :
    modeKnown v = true ↔ v = 0 ∨ v = 1 ∨ v = 2 ∨ v = 4 ∨ v = 6 := by
  simp only [modeKnown, MODES, List.any_cons, List.any_nil, Bool.or_eq_true,
    Bool.or_false, decide_eq_true_eq]
  constructor
  · rintro (h | h | h | h | h) <;> omega
  · rintro (h | h | h | h | h) <;> omega

/-- C7: on an authenticated, connected session with an accepting
transport, `set_mode(v)` emits a control frame exactly when `v` is in
the known mode set `{0, 1, 2, 4, 6}`; for any `v` outside that set
(whatever the transport would do) it returns failure, writes nothing,
and leaves the session unchanged. -/
theorem set_mode_validity (s : Session)
    (hau : s.authenticated = true) (hcl : s.hasClient = true)
    (hco : s.clientConnected = true) (hsn : s.commandSn < 4294967296)
    (v : Int) :
    ((∃ s1 f, set_mode s v true = some (true, s1, some f)) ↔
      v = 0 ∨ v = 1 ∨ v = 2 ∨ v = 4 ∨ v = 6) ∧
    (¬(v = 0 ∨ v = 1 ∨ v = 2 ∨ v = 4 ∨ v = 6) →
      ∀ w, set_mode s v w = some (false, s, none)) := by
  have hfail : ¬(v = 0 ∨ v = 1 ∨ v = 2 ∨ v = 4 ∨ v = 6) →
      ∀ w, set_mode s v w = some (false, s, none) := by
    intro hv w
    have hm : modeKnown v = false := by
      rcases h : modeKnown v with _ | _
      · rfl
      · exact absurd ((modeKnown_iff v).1 h) hv
    simp [set_mode, hm]
  refine ⟨⟨?_, ?_⟩, hfail⟩
  · rintro ⟨s1, f, hsf⟩
    by_contra hv
    rw [hfail hv true] at hsf
    exact absurd (Option.some.inj hsf) (by simp)
  · intro hv
    have hm : modeKnown v = true := (modeKnown_iff v).2 hv
    have h0 : 0 ≤ v := by omega
    have h1 : v < 256 := by omega
    rw [set_mode, if_pos hm, send_command_eq s ATTR_MODE v true hau hcl hco hsn
      (by norm_num [ATTR_MODE]) (by norm_num [ATTR_MODE])
      (by norm_num [ATTR_MODE]) h0 h1]
    exact ⟨_, _, rfl⟩

/-- Witness for C7 at `v = 4` on a concrete authenticated session. -/
theorem set_mode_validity_witness :
    (authSession.authenticated = true ∧
      authSession.commandSn < 4294967296) ∧
    ((∃ s1 f, set_mode authSession 4 true = some (true, s1, some f)) ↔
      (4 : Int) = 0 ∨ (4 : Int) = 1 ∨ (4 : Int) = 2 ∨ (4 : Int) = 4 ∨
        (4 : Int) = 6) :=
  ⟨⟨rfl, by norm_num [authSession, defaultSession]⟩,
    (set_mode_validity authSession rfl rfl rfl
      (by norm_num [authSession, defaultSession]) 4).1⟩

/-! Section: C9: reconnect backoff bounds -/

/-- Helper: the delay sequence with zero jitter stays nonnegative. -/
theorem reconnect_delays_zero_nonneg (n : Nat) :
    0 ≤ reconnect_delays (fun _ => 0) n := by
  induction n with
  | zero => norm_num [reconnect_delays]
  | succ k ih =>
    refine le_min ?_ ?_
    · show (0 : ℚ) ≤ reconnect_delays (fun _ => 0) k * 2 + 0
      linarith
    · norm_num

/-- C9: with every jitter draw in `[0, delay / 10]`, the reconnect
delay sequence starting at 5 s is non-decreasing, never exceeds 300 s,
and once it reaches 300 s it stays there. -/
theorem reconnect_backoff_bounds (jit : Nat → ℚ)
    (hj : ∀ n, 0 ≤ jit n ∧ jit n ≤ reconnect_delays jit n / 10) :
    ∀ n, reconnect_delays jit n ≤ reconnect_delays jit (n + 1) ∧
      reconnect_delays jit n ≤ 300 ∧
      (reconnect_delays jit n = 300 → reconnect_delays jit (n + 1) = 300) := by
  have key : ∀ n, 0 ≤ reconnect_delays jit n ∧ reconnect_delays jit n ≤ 300 := by
    intro n
    induction n with
    | zero => norm_num [reconnect_delays]
    | succ k ih =>
      rcases hj k with ⟨hj0, _⟩
      refine ⟨le_min (by linarith [ih.1]) (by norm_num), min_le_right _ _⟩
  intro n
  rcases key n with ⟨h0, h300⟩
  rcases hj n with ⟨hj0, _⟩
  refine ⟨le_min (by linarith) h300, h300, ?_⟩
  · intro h
    show reconnect_next (reconnect_delays jit n) (jit n) = 300
    rw [reconnect_next, h]
    exact min_eq_right (by linarith)

/-- Witness for C9 with the zero jitter sequence, at step 3. -/
theorem reconnect_backoff_bounds_witness :
    (∀ n, 0 ≤ (fun _ => (0 : ℚ)) n ∧
      (fun _ => (0 : ℚ)) n ≤ reconnect_delays (fun _ => 0) n / 10) ∧
    (reconnect_delays (fun _ => 0) 3 ≤ reconnect_delays (fun _ => 0) 4 ∧
      reconnect_delays (fun _ => 0) 3 ≤ 300 ∧
      (reconnect_delays (fun _ => 0) 3 = 300 →
        reconnect_delays (fun _ => 0) 4 = 300)) := by
  have hj : ∀ n, 0 ≤ (fun _ => (0 : ℚ)) n ∧
      (fun _ => (0 : ℚ)) n ≤ reconnect_delays (fun _ => 0) n / 10 := by
    intro n
    exact ⟨le_refl 0, div_nonneg (reconnect_delays_zero_nonneg n) (by norm_num)⟩
  exact ⟨hj, reconnect_backoff_bounds (fun _ => 0) hj 3⟩

/-! Section: C10: unknown attribute triples are ignored -/

/-- C10: an inbound attribute update whose `(type, attr_hi, attr_lo)`
triple is none of the five known attributes leaves the pump state
exactly as it was (no field changes, `state_initialized` untouched)
and emits no state-change event. -/
theorem update_state_unknown_attr_noop (st : PumpState)
    (t hi lo v : Nat) (now : ℚ) (h : (t, hi, lo) ∉ knownAttrs) :
    update_state st t hi lo v now = (st, false) := by
  have h1 : ¬(t = 0x00 ∧ hi = 0x00 ∧ lo = 0x01) := by
    rintro ⟨rfl, rfl, rfl⟩; exact h (by decide)
  have h2 : ¬(t = 0x00 ∧ hi = 0x00 ∧ lo = 0x04) := by
    rintro ⟨rfl, rfl, rfl⟩; exact h (by decide)
  have h3 : ¬(t = 0x00 ∧ hi = 0x10 ∧ lo = 0x02) := by
    rintro ⟨rfl, rfl, rfl⟩; exact h (by decide)
  have h4 : ¬(t = 0x00 ∧ hi = 0x80 ∧ lo = 0x00) := by
    rintro ⟨rfl, rfl, rfl⟩; exact h (by decide)
  have h5 : ¬(t = 0x01 ∧ hi = 0x00 ∧ lo = 0x00) := by
    rintro ⟨rfl, rfl, rfl⟩; exact h (by decide)
  simp [update_state, h1, h2, h3, h4, h5]

/-- Witness for C10 at the unknown triple `(0, 0, 2)`. -/
theorem update_state_unknown_attr_noop_witness :
    ((0, 0, 2) : Nat × Nat × Nat) ∉ knownAttrs ∧
    update_state defaultPumpState 0 0 2 9 0 = (defaultPumpState, false) :=
  ⟨by decide, update_state_unknown_attr_noop defaultPumpState 0 0 2 9 0 (by decide)⟩

/-! Section: C8: no premature publish before state_seen -/

/-- C8: while the broker link is up and the pump has never received a
device-originated update (`state_initialized` false), one invocation of
the state publisher publishes exactly one topic, the connected state,
and leaves the pump state untouched; all other state topics appear only
in the `state_initialized` branch. -/
theorem publish_state_gating (pfx pid : String) (st : PumpState)
    (today : String) (now : ℚ) (h : st.state_initialized = false) :
    (publish_state true pfx pid st today now).1 =
      [(pfx ++ "/" ++ pid ++ "/connected/state",
        if st.connected then "ON" else "OFF")] ∧
    (publish_state true pfx pid st today now).2 = st := by
  constructor <;> simp [publish_state, h]

/-- Witness for C8 on the default pump state. -/
theorem publish_state_gating_witness :
    defaultPumpState.state_initialized = false ∧
    ((publish_state true "jebao" "pump1" defaultPumpState "2026-10-12" 0).1 =
      [("jebao" ++ "/" ++ "pump1" ++ "/connected/state",
        if defaultPumpState.connected then "ON" else "OFF")] ∧
     (publish_state true "jebao" "pump1" defaultPumpState "2026-10-12" 0).2 =
       defaultPumpState) :=
  ⟨rfl, publish_state_gating "jebao" "pump1" defaultPumpState "2026-10-12" 0 rfl⟩

/-! Section: C4: power and feed payload truthiness -/

/-- C4 counterexample: a payload with a trailing blank.  Its
lowercase-stripped form is in the truthy set, so the claim says
`set_power` receives `true`; the code only lowercases (no strip), so
`set_power` receives `false`. -/
theorem power_payload_strip_cex :
    handle_command (fun _ => none) "power" "on " = CommandAction.power false ∧
    spec_truthy "on " = true ∧ payload_truthy "on " = false := by
  refine ⟨?_, ?_, ?_⟩ <;> decide

/-- C4 (amended): for every broker payload, the power and feed command
paths invoke the corresponding setter with exactly the boolean stating
that the LOWERCASED (but not stripped) payload is one of on, true, 1. -/
theorem handle_command_power_feed_truthy (parseNum : String → Option Int)
    (payload : String) :
    handle_command parseNum "power" payload =
      CommandAction.power (payload_truthy payload) ∧
    handle_command parseNum "feed" payload =
      CommandAction.feed (payload_truthy payload) ∧
    (payload_truthy payload = true ↔
      (pyLower payload = "on" ∨ pyLower payload = "true" ∨
        pyLower payload = "1")) := by
  refine ⟨rfl, rfl, ?_⟩
  simp [payload_truthy, or_assoc]

/-! Section: C3: connect success conditions -/

/-- C3 counterexample: a session whose client object is present and
reports connected but which is NOT authenticated.  `connect` returns
success immediately (the guard on source line 251 tests the client
link, not the authenticated state), even in an environment where no
authentication could ever complete. -/
theorem connect_immediate_not_authenticated_cex :
    connect linkOnlySession ⟨false, fun _ => false⟩ = (true, linkOnlySession) ∧
    linkOnlySession.authenticated = false := ⟨rfl, rfl⟩

/-- C3 (amended): `connect` returns success immediately exactly when
the client object is present and reports connected (regardless of the
authenticated state); otherwise it succeeds exactly when the BLE setup
completes and some of the 50 polls at 100 ms granularity sees the
notification handler in the authenticated state, and on failure the
half-open connection has been cleaned up. -/
theorem connect_success_conditions (s : Session) (env : ConnectEnv) :
    ((s.hasClient && s.clientConnected) = true → connect s env = (true, s)) ∧
    ((s.hasClient && s.clientConnected) = false →
      (((connect s env).1 = true) ↔
        (env.bleOk = true ∧ (List.range 50).any env.authAt = true)) ∧
      ((connect s env).1 = false →
        (connect s env).2 = cleanup_connection
          { s with hasClient := true, clientConnected := true })) := by
  constructor
  · intro h; simp [connect, h]
  · intro h
    rcases env with ⟨bleOk, authAt⟩
    cases bleOk <;> rcases hany : (List.range 50).any authAt with _ | _ <;>
      simp [connect, h, hany]

/-- Witness for the amended C3 on a fresh session in an environment
that authenticates at once. -/
theorem connect_success_conditions_witness :
    ((defaultSession.hasClient && defaultSession.clientConnected) = false) ∧
    ((((connect defaultSession ⟨true, fun _ => true⟩).1 = true) ↔
        ((⟨true, fun _ => true⟩ : ConnectEnv).bleOk = true ∧
          (List.range 50).any (⟨true, fun _ => true⟩ : ConnectEnv).authAt = true)) ∧
      (((connect defaultSession ⟨true, fun _ => true⟩).1 = false) →
        (connect defaultSession ⟨true, fun _ => true⟩).2 = cleanup_connection
          { defaultSession with hasClient := true, clientConnected := true })) :=
  ⟨rfl, (connect_success_conditions defaultSession ⟨true, fun _ => true⟩).2 rfl⟩

/-! Section: C2: decoding of inbound control notifications -/

/-- Helper: indexing into a dropped list. -/
theorem getD_drop_eq (l : List Nat) (i j : Nat) :
    (l.drop i).getD j 0 = l.getD (i + j) 0 := by
  simp [List.getD_eq_getElem?_getD, List.getElem?_drop]

/-- C2 counterexample: the literal 21-byte frame of scenario S4 passes
the 19-byte threshold, but its slice from offset 12 is only 9 bytes,
below the 11-byte P0 guard on source line 162, so the handler changes
nothing: mode stays 0, the seen flag stays false and no event is
emitted, contradicting the claimed decode. -/
theorem notification_s4_frame_ignored_cex :
    s4Frame.length = 21 ∧ 19 ≤ s4Frame.length ∧
    notification_handler defaultSession s4Frame 0 = ⟨defaultSession, 0, false⟩ ∧
    (notification_handler defaultSession s4Frame 0).session.state.mode = 0 ∧
    (notification_handler defaultSession s4Frame
      0).session.state.state_initialized = false ∧
    (notification_handler defaultSession s4Frame 0).events = 0 := by
  refine ⟨rfl, by decide, by decide, by decide, by decide, by decide⟩

/-- C2 (amended): an inbound control (0x0093) notification is decoded
as an attribute update only when its offset-12 slice holds a full
11-byte P0, i.e. when the frame has at least 23 bytes; the update reads
the type at P0 offset 7 (frame offset 19), attr_hi at 8, attr_lo at 9
and the value at 10, and emits one state-change event exactly when the
update changed a field. -/
theorem notification_control_decode (s : Session) (data : List Nat) (now : ℚ)
    (h6 : data.getD 6 0 = 0x00) (h7 : data.getD 7 0 = 0x93)
    (hlen : 23 ≤ data.length) :
    notification_handler s data now =
      ⟨{ s with state := (update_state s.state (data.getD 19 0) (data.getD 20 0)
          (data.getD 21 0) (data.getD 22 0) now).1 },
        if (update_state s.state (data.getD 19 0) (data.getD 20 0)
          (data.getD 21 0) (data.getD 22 0) now).2 then 1 else 0,
        false⟩ := by
  have hlt : ¬ data.length < 8 := by omega
  have h19 : data.length ≥ 19 := by omega
  have hp0 : (data.drop 12).length ≥ 11 := by
    rw [List.length_drop]; omega
  simp only [notification_handler, h6, h7, getD_drop_eq]
  norm_num [hlt, h19, hp0]
  intro h
  exact absurd h (by omega)

/-- Witness for the amended C2: the well-formed 23-byte mode frame on a
fresh session sets mode 4, marks the state seen, and emits one event. -/
theorem notification_control_decode_witness :
    (modeFrame.getD 6 0 = 0x00 ∧ modeFrame.getD 7 0 = 0x93 ∧
      23 ≤ modeFrame.length) ∧
    notification_handler defaultSession modeFrame 0 =
      ⟨{ defaultSession with state := (update_state defaultSession.state
          (modeFrame.getD 19 0) (modeFrame.getD 20 0) (modeFrame.getD 21 0)
          (modeFrame.getD 22 0) 0).1 },
        if (update_state defaultSession.state (modeFrame.getD 19 0)
          (modeFrame.getD 20 0) (modeFrame.getD 21 0)
          (modeFrame.getD 22 0) 0).2 then 1 else 0,
        false⟩ ∧
    (notification_handler defaultSession modeFrame 0).session.state.mode = 4 ∧
    (notification_handler defaultSession modeFrame
      0).session.state.state_initialized = true ∧
    (notification_handler defaultSession modeFrame 0).events = 1 :=
  ⟨⟨rfl, rfl, by decide⟩,
    notification_control_decode defaultSession modeFrame 0 rfl rfl (by decide),
    by decide, by decide, by decide⟩
